import Mathlib

/-!
Verification development for the Assignment Evaluation API
(src/app.py and src/eval_gen_api.py).

The endpoints are shallowly embedded as pure functions from the parsed
model output (a JSON value) to `Except String` results: a Python
exception caught by the endpoint's `except Exception` handler is
modelled as `Except.error` carrying the exception text, and the HTTP 200
body as `Except.ok`.  Python floats are modelled as rationals (the
claims under scrutiny only involve exact decimal arithmetic), and the
Markdown fence-stripping layer, which acts on raw text before JSON
parsing, is modelled over `List Char`.
-/

set_option maxHeartbeats 1000000

/-- A parsed JSON value, as returned by Python's `json.loads`:
`null`, booleans, numbers, strings, arrays, and objects (ordered
key/value lists, Python dicts preserve insertion order).  Numbers are
modelled as rationals. -/
inductive Json where
  | null
  | bool (b : Bool)
  | num (q : Rat)
  | str (s : String)
  | arr (elems : List Json)
  | obj (fields : List (String × Json))

/-- `QuestionItem` request model (src/app.py lines 26-30). -/
structure QuestionItem where
  question_id : String
  question : String
  actual_answer : String
  expected_answer : String

/-- `Submission` request model (src/app.py lines 32-33). -/
structure Submission where
  items : List QuestionItem

/-- `ScoreDetail` response model (src/app.py lines 35-40); the `float`
score is modelled as a rational. -/
structure ScoreDetail where
  question_id : String
  question : String
  score : Rat
  correct : Bool
  feedback : String

/-- `ScoreResponse` response model (src/app.py lines 42-44). -/
structure ScoreResponse where
  total_score : Rat
  details : List ScoreDetail

/-- `SWOTResponse` response model (src/app.py lines 47-51). -/
structure SWOTResponse where
  strengths : String
  weaknesses : String
  opportunities : String
  threats : String

/-- `QuestionGenerationRequest` request model (src/app.py lines 53-66). -/
structure QuestionGenerationRequest where
  title : String
  subject : String
  class_ : String
  start_date : String
  end_date : String
  question_type : String
  number_of_questions : Int
  difficulty : String
  topics : String
  instructions : String
  description : String
  max_score : Int
  passing_score : Int

/-- `GeneratedQuestion` response model (src/app.py lines 68-70). -/
structure GeneratedQuestion where
  question : String
  expected_answer : String

/-- `QuestionGenerationResponse` response model (src/app.py lines 72-73). -/
structure QuestionGenerationResponse where
  questions : List GeneratedQuestion

/-- The three admissible question types of the
`Literal["SHORT_ANSWER", "MCQ", "LONG_ANSWER"]` pydantic annotation
(src/app.py line 82). -/
inductive QType where
  | SHORT_ANSWER
  | MCQ
  | LONG_ANSWER
deriving DecidableEq

/-- `AlternativeOption` response model (src/app.py lines 76-78). -/
structure AlternativeOption where
  id : String
  text : String

/-- `AlternativeQuestion` response model (src/app.py lines 80-87).
The `answer_type` field is constrained to the literal string `"Text"`
by validation, but kept as a field as in the source. -/
structure AlternativeQuestion where
  id : String
  type : QType
  text : String
  answer_type : String
  expected_answer : String
  marks : Int
  options : Option (List AlternativeOption)

/-- `AlternativeRequest` request model (src/app.py lines 89-97). -/
structure AlternativeRequest where
  id : String
  title : String
  description : String
  subtopic : String
  difficulty : String
  marks : Int
  questionType : QType
  subject : String

/-! ### Python coercion primitives used by the endpoints -/

/-- Python truthiness `bool(x)` on a parsed JSON value: `None`, `0`,
empty strings, empty lists and empty dicts are falsy, everything else
truthy.  Total: `bool()` never raises. -/
def pyBool : Json → Bool
  | Json.null => false
  | Json.bool b => b
  | Json.num q => if q = 0 then false else true
  | Json.str s => if s = ("") then false else true
  | Json.arr xs => !xs.isEmpty
  | Json.obj fs => !fs.isEmpty

/-- Pydantic validation of a `str` field: only an actual string is
accepted (pydantic v2 does not coerce numbers or `None` into `str`). -/
def asStr : Json → Except String String
  | Json.str s => Except.ok s
  | _ => Except.error (("Input should be a valid string"))

/-- Value of a list of decimal digits, most significant first. -/
def digitsVal (cs : List Char) : Nat :=
  cs.foldl (fun a c => a * 10 + (c.toNat - 48)) 0

/-- Python `float(s)` on a string: strips whitespace, then accepts an
optional sign followed by a decimal literal (digits, optionally with a
single decimal point).  Exponent, underscore and `inf`/`nan` forms are
not modelled; they do not arise in the claims under scrutiny. -/
def pyFloatOfString (s : String) : Except String Rat :=
  let cs := s.trim.toList
  let signed : Int × List Char :=
    match cs with
    | '-' :: rest => (-1, rest)
    | '+' :: rest => (1, rest)
    | _ => (1, cs)
  let intPart := signed.2.takeWhile Char.isDigit
  let rest := signed.2.dropWhile Char.isDigit
  match rest with
  | [] =>
    if intPart.isEmpty then
      Except.error ((("could not convert string to float: ")) ++ s)
    else
      Except.ok ((signed.1 : Rat) * (digitsVal intPart : Rat))
  | '.' :: frac =>
    if frac.all Char.isDigit && !(intPart.isEmpty && frac.isEmpty) then
      Except.ok ((signed.1 : Rat) *
        ((digitsVal intPart : Rat) + (digitsVal frac : Rat) / ((10 : Rat) ^ frac.length)))
    else
      Except.error (("could not convert string to float: ") ++ s)
  | _ => Except.error (("could not convert string to float: ") ++ s)

/-- Python `float(x)` on a parsed JSON value: numbers pass through,
booleans become 0/1, numeric strings are parsed, and any other value
raises a `TypeError`. -/
def pyFloat : Json → Except String Rat
  | Json.num q => Except.ok q
  | Json.bool b => Except.ok (if b then 1 else 0)
  | Json.str s => pyFloatOfString s
  | _ => Except.error (("float() argument must be a string or a real number"))

/-- Python `int(s)`-style lax string coercion used by pydantic for `int`
fields: optional sign followed by digits. -/
def pyIntOfString (s : String) : Except String Int :=
  let cs := s.trim.toList
  let signed : Int × List Char :=
    match cs with
    | '-' :: rest => (-1, rest)
    | '+' :: rest => (1, rest)
    | _ => (1, cs)
  if !signed.2.isEmpty && signed.2.all Char.isDigit then
    Except.ok (signed.1 * (digitsVal signed.2 : Int))
  else
    Except.error (("Input should be a valid integer"))

/-- Pydantic lax validation of an `int` field: integers (rationals with
denominator one) and integral strings are accepted; fractional numbers,
booleans and other shapes are rejected. -/
def pyIntLax : Json → Except String Int
  | Json.num q => if q.den = 1 then Except.ok q.num else Except.error (("Input should be a valid integer"))
  | Json.str s => pyIntOfString s
  | _ => Except.error (("Input should be a valid integer"))

/-- Python iteration over a parsed JSON value, as used by `zip` and list
comprehensions: lists yield their elements, dicts their keys, strings
their one-character substrings; any other value raises `TypeError`. -/
def pyIter : Json → Except String (List Json)
  | Json.arr xs => Except.ok xs
  | Json.obj fs => Except.ok (fs.map (fun p => Json.str p.1))
  | Json.str s => Except.ok (s.toList.map (fun c => Json.str (String.singleton c)))
  | _ => Except.error (("object is not iterable"))

/-! ### The `/evaluate` endpoint (src/app.py lines 208-244, identical in
src/eval_gen_api.py lines 117-153) -/

/-- Processing of one entry of the model's output array inside the
`/evaluate` loop (src/app.py lines 227-230): `entry.get` requires a
dict (anything else raises `AttributeError`), a missing `score` defaults
to `0`, a missing `correct` to `False`, missing `feedback`/`question`
to the empty string; the extracted values are then coerced by
`float`, `bool`, and the `ScoreDetail` `str` validators.  The result
tuple is `(score, correct, feedback, question)`. -/
def processEntry (entry : Json) : Except String (Rat × Bool × String × String) :=
  match entry with
  | Json.obj fields =>
    match pyFloat ((fields.lookup ("score")).getD (Json.num 0)) with
    | Except.error e => Except.error e
    | Except.ok score =>
      let correct := pyBool ((fields.lookup ("correct")).getD (Json.bool false))
      match asStr ((fields.lookup ("feedback")).getD (Json.str (""))) with
      | Except.error e => Except.error e
      | Except.ok feedback =>
        match asStr ((fields.lookup ("question")).getD (Json.str (""))) with
        | Except.error e => Except.error e
        | Except.ok question => Except.ok (score, correct, feedback, question)
  | _ => Except.error (("object has no attribute get"))

/-- An entry that the `/evaluate` loop processes without raising. -/
def entryOk (entry : Json) : Bool :=
  match processEntry entry with
  | Except.ok _ => true
  | Except.error _ => false

/-- The `for entry, original_item in zip(raw, submission.items)` loop of
`/evaluate` (src/app.py lines 226-239): accumulates `total` (starting
from the caller-supplied accumulator, `0.0` at the top-level call) and
builds the details list in order, attaching the original item's
`question_id` to each entry by position. -/
def evalLoop (acc : Rat) : List (Json × QuestionItem) → Except String (Rat × List ScoreDetail)
  | [] => Except.ok (acc, [])
  | (entry, item) :: rest =>
    match processEntry entry with
    | Except.error e => Except.error e
    | Except.ok (score, correct, feedback, question) =>
      match evalLoop (acc + score) rest with
      | Except.error e => Except.error e
      | Except.ok (total, ds) =>
        Except.ok (total, ⟨item.question_id, question, score, correct, feedback⟩ :: ds)

/-- The `/evaluate` handler after JSON parsing (src/app.py lines
221-241): `zip` the parsed value against the submission items
(truncating to the shorter sequence) and run the loop. -/
def evaluate (items : List QuestionItem) (raw : Json) : Except String ScoreResponse :=
  match pyIter raw with
  | Except.error e => Except.error e
  | Except.ok entries =>
    match evalLoop 0 (entries.zip items) with
    | Except.error e => Except.error e
    | Except.ok (total, details) => Except.ok ⟨total, details⟩

/-- The `/evaluate` endpoint including the JSON-parse stage: a parse
failure propagates as the caught exception's text (src/app.py lines
243-244). -/
def evaluateEndpoint (items : List QuestionItem) (parsed : Except String Json) :
    Except String ScoreResponse :=
  match parsed with
  | Except.error e => Except.error e
  | Except.ok raw => evaluate items raw

/-! ### The `/swot` endpoint (src/app.py lines 250-272) -/

/-- The `/swot` handler after JSON parsing (src/app.py lines 263-269):
`data.get` requires a dict; each of the four fields defaults to the
empty string when absent and must be a string to pass the
`SWOTResponse` validators. -/
def swot (data : Json) : Except String SWOTResponse :=
  match data with
  | Json.obj fs => do
    let s ← asStr ((fs.lookup ("strengths")).getD (Json.str ("")))
    let w ← asStr ((fs.lookup ("weaknesses")).getD (Json.str ("")))
    let o ← asStr ((fs.lookup ("opportunities")).getD (Json.str ("")))
    let t ← asStr ((fs.lookup ("threats")).getD (Json.str ("")))
    Except.ok ⟨s, w, o, t⟩
  | _ => Except.error (("object has no attribute get"))

/-- The `/swot` endpoint including the JSON-parse stage (src/app.py
lines 271-272). -/
def swotEndpoint (parsed : Except String Json) : Except String SWOTResponse :=
  match parsed with
  | Except.error e => Except.error e
  | Except.ok d => swot d

/-! ### The `/generate-qa` endpoint (src/app.py lines 274-312) -/

/-- Construction of one `GeneratedQuestion` from a parsed entry
(src/app.py line 306): `q.get` requires a dict, `q.get("question")`
with no default yields `None` when the key is absent, which the
`GeneratedQuestion` `str` validators then reject. -/
def buildGeneratedQuestion (q : Json) : Except String GeneratedQuestion :=
  match q with
  | Json.obj fs => do
    let qt ← asStr ((fs.lookup ("question")).getD Json.null)
    let ea ← asStr ((fs.lookup ("expected_answer")).getD Json.null)
    Except.ok ⟨qt, ea⟩
  | _ => Except.error (("object has no attribute get"))

/-- The list comprehension of src/app.py lines 305-308: builds the
generated questions left to right, failing at the first bad entry. -/
def buildQuestionList : List Json → Except String (List GeneratedQuestion)
  | [] => Except.ok []
  | q :: rest =>
    match buildGeneratedQuestion q with
    | Except.error e => Except.error e
    | Except.ok g =>
      match buildQuestionList rest with
      | Except.error e => Except.error e
      | Except.ok gs => Except.ok (g :: gs)

/-- Building the `/generate-qa` success response from the value found
under the `"questions"` key (src/app.py lines 304-309): the value is
iterated Python-style and each element mapped to a
`GeneratedQuestion`. -/
def buildFromQuestions (qs : Json) : Except String QuestionGenerationResponse :=
  match pyIter qs with
  | Except.error e => Except.error e
  | Except.ok l =>
    match buildQuestionList l with
    | Except.error e => Except.error e
    | Except.ok gs => Except.ok ⟨gs⟩

/-- The `/generate-qa` handler after JSON parsing (src/app.py lines
291-309): a list is unwrapped to its first element (an empty list is an
error), the result must be a dict containing `"questions"`, and the
response is built from that value. -/
def generate_questions (parsed : Json) : Except String QuestionGenerationResponse :=
  match parsed with
  | Json.arr [] => Except.error (("Gemini returned an empty list"))
  | Json.arr (x :: _) =>
    match x with
    | Json.obj fs =>
      match fs.lookup ("questions") with
      | some qs => buildFromQuestions qs
      | none => Except.error (("Unexpected Gemini response structure"))
    | _ => Except.error (("Unexpected Gemini response structure"))
  | Json.obj fs =>
    match fs.lookup ("questions") with
    | some qs => buildFromQuestions qs
    | none => Except.error (("Unexpected Gemini response structure"))
  | _ => Except.error (("Unexpected Gemini response structure"))

/-- The value from which `/generate-qa` builds its response, exactly
when the guard of src/app.py lines 293-301 accepts the parsed output:
an object containing a `questions` key — whatever value that key maps
to — or a non-empty list whose first element is such an object;
`none` exactly for the shapes the handler rejects.  Note the guard
checks key presence only, never that the value is an array. -/
def qaGuardExtract (parsed : Json) : Option Json :=
  match parsed with
  | Json.obj fs => fs.lookup ("questions")
  | Json.arr (Json.obj fs :: _) => fs.lookup ("questions")
  | _ => none

/-- The `/generate-qa` endpoint including the JSON-parse stage; every
caught exception text is reported with the `"Gemini Error: "` prefix
(src/app.py lines 311-312). -/
def generateQaEndpoint (parsed : Except String Json) : Except String QuestionGenerationResponse :=
  match parsed with
  | Except.error e => Except.error ((("Gemini Error: ")) ++ e)
  | Except.ok p =>
    match generate_questions p with
    | Except.error e => Except.error ((("Gemini Error: ")) ++ e)
    | Except.ok r => Except.ok r

/-! ### The `/generate-alternatives` endpoint (src/app.py lines 317-346) -/

/-- Validation of the `type` literal field of `AlternativeQuestion`. -/
def asQType (j : Json) : Except String QType :=
  match j with
  | Json.str s =>
    if s = ("SHORT_ANSWER") then Except.ok QType.SHORT_ANSWER
    else if s = ("MCQ") then Except.ok QType.MCQ
    else if s = ("LONG_ANSWER") then Except.ok QType.LONG_ANSWER
    else Except.error (("Input should be SHORT_ANSWER, MCQ or LONG_ANSWER"))
  | _ => Except.error (("Input should be SHORT_ANSWER, MCQ or LONG_ANSWER"))

/-- A required pydantic field: absent keys are a validation error. -/
def requireField (fs : List (String × Json)) (k : String) : Except String Json :=
  match fs.lookup k with
  | some v => Except.ok v
  | none => Except.error ((("Field required: ")) ++ k)

/-- Pydantic validation of one `AlternativeOption`. -/
def parseAlternativeOption (j : Json) : Except String AlternativeOption :=
  match j with
  | Json.obj fs => do
    let idS ← requireField fs ("id") >>= asStr
    let txt ← requireField fs ("text") >>= asStr
    Except.ok ⟨idS, txt⟩
  | _ => Except.error (("Input should be a valid dictionary"))

/-- Pydantic validation of the optional `options` field: `None` (or an
absent key, whose default is `None`) is accepted, a list is validated
element-wise, anything else is rejected. -/
def parseOptionsField (j : Json) : Except String (Option (List AlternativeOption)) :=
  match j with
  | Json.null => Except.ok none
  | Json.arr xs => do
    let opts ← xs.mapM parseAlternativeOption
    Except.ok (some opts)
  | _ => Except.error (("Input should be a valid list"))

/-- `AlternativeQuestion(**q)` (src/app.py line 341): `q` must be a
dict and every required field must validate against the fixed schema;
`answer_type` must be the literal string `"Text"`. -/
def parseAlternativeQuestion (j : Json) : Except String AlternativeQuestion :=
  match j with
  | Json.obj fs => do
    let idS ← requireField fs ("id") >>= asStr
    let ty ← requireField fs ("type") >>= asQType
    let txt ← requireField fs ("text") >>= asStr
    let ansType ← requireField fs ("answer_type") >>= asStr
    if ansType = ("Text") then do
      let ea ← requireField fs ("expected_answer") >>= asStr
      let mks ← requireField fs ("marks") >>= pyIntLax
      let opts ← parseOptionsField ((fs.lookup ("options")).getD Json.null)
      Except.ok ⟨idS, ty, txt, ansType, ea, mks, opts⟩
    else Except.error (("Input should be Text"))
  | _ => Except.error (("Input should be a valid dictionary"))

/-- The list comprehension of src/app.py line 341, left to right,
failing at the first invalid entry. -/
def parseAlternatives : List Json → Except String (List AlternativeQuestion)
  | [] => Except.ok []
  | q :: rest =>
    match parseAlternativeQuestion q with
    | Except.error e => Except.error e
    | Except.ok a =>
      match parseAlternatives rest with
      | Except.error e => Except.error e
      | Except.ok tail => Except.ok (a :: tail)

/-- The `/generate-alternatives` handler after JSON parsing (src/app.py
lines 336-342): anything that is not a JSON array of length exactly 3
raises `ValueError("Expected a JSON array of length 3")`; otherwise
every entry is validated as an `AlternativeQuestion`. -/
def generate_alternatives (parsed : Json) : Except String (List AlternativeQuestion) :=
  match parsed with
  | Json.arr qs =>
    if qs.length = 3 then parseAlternatives qs
    else Except.error (("Expected a JSON array of length 3"))
  | _ => Except.error (("Expected a JSON array of length 3"))

/-- The `/generate-alternatives` endpoint including the JSON-parse
stage; every caught exception text is reported with the
`"Gemini error: "` prefix (src/app.py lines 344-346). -/
def generateAlternativesEndpoint (parsed : Except String Json) :
    Except String (List AlternativeQuestion) :=
  match parsed with
  | Except.error e => Except.error ((("Gemini error: ")) ++ e)
  | Except.ok p =>
    match generate_alternatives p with
    | Except.error e => Except.error ((("Gemini error: ")) ++ e)
    | Except.ok r => Except.ok r

/-! ### The `/health-check` endpoint (src/app.py lines 350-352,
identical in src/eval_gen_api.py lines 242-244) -/

/-- The `/health-check` handler.  The source handler takes no
arguments and returns the fixed payload; the ambient external-service
response (available to every handler through the module-level client)
is made an explicit argument here solely so that independence from the
external service can be stated — the handler ignores it, as the source
never touches the client. -/
def health_check (serviceResponse : Except String Json) : Json :=
  Json.obj [(("status"), Json.str ("ok"))]

/-! ### Prompt builders (src/app.py lines 100-205) -/

/-- `build_question_generation_prompt` (src/app.py lines 100-128):
fixed template with the request's `number_of_questions`,
`question_type`, `topics`, `subject`, `class_`, `difficulty` and
`instructions` interpolated verbatim. -/
def build_question_generation_prompt (payload : QuestionGenerationRequest) : String :=
  ("\nYou are a highly experienced school teacher tasked with creating a test.\n\nPlease generate ")
    ++ toString payload.number_of_questions
    ++ (" **") ++ payload.question_type
    ++ ("** questions based on the topic **") ++ payload.topics
    ++ ("**, for the subject **") ++ payload.subject
    ++ ("**, targeted at **") ++ payload.class_
    ++ ("** students. The difficulty should be **") ++ payload.difficulty
    ++ ("** level.\n\nMake sure the questions:\n- Are clear and age-appropriate.\n- Do NOT repeat the same concept.\n- Follow these instructions: ")
    ++ payload.instructions
    ++ ("\n\nFor each question, provide an expected answer clearly. Return the output as a JSON array with fields:\n- `question`: the full question text.\n- `expected_answer`: the correct answer to that question. \n\n### Example format:\n  \x7b\n  \"questions\": [\n    \x7b\n      \"question\": \"Your generated question here\",\n      \"expected_answer\": \"The correct answer here\"\n    \x7d,\n    ...\n  ]\n\x7d\n  ...\n\nONLY return a valid JSON array and nothing else. Now generate the questions:\n    ")

/-- The fixed instruction header of `build_evaluation_prompt`
(src/app.py lines 131-139). -/
def evaluationPromptHeader : String :=
  ("\n        You are an expert teacher with deep knowledge in the subject matter. Evaluate the following student responses to a set of questions. For each response, provide a detailed assessment by:\n        Assigning a score out of 0-10 based on accuracy, completeness, and clarity.\n        Indicating whether the answer is correct (True) or incorrect (False).\n        Providing customized, constructive feedback that highlights strengths, identifies errors or gaps, and offers specific guidance for improvement. Make sure it sounds very natural and personalised like an actual person would advise.\n        Return the evaluation as a JSON array, where each object contains the fields: question (the question text or identifier), score (integer from 0 to 10), correct (boolean), and feedback (a string with detailed feedback). Ensure the feedback is clear, encouraging, and actionable.\n        ")

/-- The `for idx, item in enumerate(items, 1)` loop of
`build_evaluation_prompt` (src/app.py lines 140-143). -/
def evaluationPromptItems (idx : Nat) : List QuestionItem → String
  | [] => ("")
  | item :: rest =>
    toString idx ++ (". Question: ") ++ item.question ++ ("\n")
      ++ ("Student Answer: ") ++ item.actual_answer ++ ("\n")
      ++ ("Expected Answer: ") ++ item.expected_answer ++ ("\n\n")
      ++ evaluationPromptItems (idx + 1) rest

/-- `build_evaluation_prompt` (src/app.py lines 130-144). -/
def build_evaluation_prompt (items : List QuestionItem) : String :=
  evaluationPromptHeader ++ evaluationPromptItems 1 items

/-- The fixed instruction header of `build_swot_prompt`
(src/app.py lines 152-176). -/
def swotPromptHeader : String :=
  ("\nYou are an educational expert with extensive experience in student assessment and performance analysis.\n\nReview the following set of student responses (along with the expected answers) and provide a single, overall SWOT analysis summarizing the student's overall performance — not per question.\n\nFocus on:\n- **Strengths**: What are the overall areas where this student shows strong understanding or skill across the test? Provide general patterns and examples.\n- **Weaknesses**: What general mistakes, gaps, or weaknesses appear across the responses?\n- **Opportunities**: What can this student do to improve overall? Suggest strategies, resources, or approaches they can take.\n- **Threats**: Are there any risks or challenges (like misconceptions, bad habits, or external issues) that might limit their progress?\n\n- Make sure that the analysis is very helpful, natural and very human like as if how a real person would advice and not robotic\n- Also always use \"you\" instead of student should do this,etc. Make it sound personalised to that particular person\n\nRETURN FORMAT:\nReturn the SWOT analysis as a single JSON object with these four keys:\n- strengths (string)\n- weaknesses (string)\n- opportunities (string)\n- threats (string)\n\nBe detailed, constructive, and base your analysis on overall trends, not per-question breakdowns.\n\n")

/-- `build_swot_prompt` (src/app.py lines 147-178): the header followed
by the newline-joined per-item context block. -/
def build_swot_prompt (items : List QuestionItem) : String :=
  swotPromptHeader ++ String.intercalate ("\n")
    (items.map (fun item =>
      ("Question: ") ++ item.question ++ ("\nStudent Answer: ") ++ item.actual_answer
        ++ ("\nExpected Answer: ") ++ item.expected_answer ++ ("\n")))

/-- The `qtype_map` dict of `build_alternatives_prompt`
(src/app.py lines 181-185). -/
def qtypeMap : QType → String
  | QType.SHORT_ANSWER => ("short answer")
  | QType.MCQ => ("multiple choice (MCQ)")
  | QType.LONG_ANSWER => ("long answer")

/-- `build_alternatives_prompt` (src/app.py lines 180-205): base
template over `questionType`, `subtopic`, `difficulty`, `subject`,
`marks` and `id`, with an extra options block for MCQ requests. -/
def build_alternatives_prompt (req : AlternativeRequest) : String :=
  let base :=
    ("You are a exper , creative teacher. Generate *three* distinct ")
      ++ qtypeMap req.questionType
      ++ (" questions (with expected answers) on the subtopic **") ++ req.subtopic
      ++ ("**, for a **") ++ req.difficulty
      ++ ("**-level ") ++ req.subject
      ++ (" test worth **") ++ toString req.marks
      ++ ("** marks each.\nUse the provided question ID **") ++ req.id
      ++ ("** for all three questions.\nInclude in your JSON output for each question:\n - `id`: the provided ID \n - `type`: one of SHORT_ANSWER, MCQ, LONG_ANSWER\n - `text`: the question prompt (include marks and difficulty in brackets)\n - `answer_type`: \"Text\"\n - `expected_answer`: the correct answer\n - `marks`: how many marks\n")
  let base :=
    if req.questionType = QType.MCQ then
      base ++ (" - `options`: list of four `\x7bid, text\x7d` objects representing the choices.\n - `expected_answer`: the `id` of the correct option.\n")
    else base
  base ++ ("\nReturn a JSON array of objects exactly matching this schema.")

/-! ### Markdown fence stripping (src/app.py lines 216-219, 284-287 and
329-334)

The raw model text is modelled as a `List Char`.  Python's `str.strip`
trims the full CPython whitespace set from both ends, and
`str.splitlines` breaks at every line boundary CPython recognises —
LF, VT, FF, CR (with CRLF counting as a single boundary), FS, GS, RS,
NEL, U+2028 and U+2029 — without opening an empty final line after a
trailing boundary.  `"\n".join` interleaves newlines. -/

theorem head?_append_of_ne_nil (a b : List Char) (h : a ≠ []) : (a ++ b).head? = a.head? := by
  cases a with
  | nil => exact absurd rfl h
  | cons c cs => rfl

theorem evalLoop_ok_of_entries (pairs : List (Json × QuestionItem)) (acc : Rat)
    (h : ∀ p ∈ pairs, entryOk p.1 = true) :
    ∃ total ds, evalLoop acc pairs = Except.ok (total, ds) ∧
      ds.length = pairs.length ∧
      ds.map (fun d => d.question_id) = pairs.map (fun p => p.2.question_id) := by
  induction pairs generalizing acc with
  | nil => exact ⟨acc, [], rfl, rfl, rfl⟩
  | cons p rest ih =>
    obtain ⟨e, item⟩ := p
    have he : entryOk e = true := h _ (List.mem_cons_self _ _)
    cases hpe : processEntry e with
    | error msg => simp [entryOk, hpe] at he
    | ok v =>
      obtain ⟨score, correct, feedback, question⟩ := v
      obtain ⟨total, ds, hds, hlen, hmap⟩ :=
        ih (acc + score) (fun q hq => h q (List.mem_cons_of_mem _ hq))
      refine ⟨total, ⟨item.question_id, question, score, correct, feedback⟩ :: ds, ?_, ?_, ?_⟩
      · simp [evalLoop, hpe, hds]
      · simp [hlen]
      · simp [hmap]

theorem evalLoop_total (pairs : List (Json × QuestionItem)) :
    ∀ (acc total : Rat) (ds : List ScoreDetail),
      evalLoop acc pairs = Except.ok (total, ds) →
      total = acc + (ds.map (fun d => d.score)).sum := by
  induction pairs with
  | nil =>
    intro acc total ds h
    rw [evalLoop] at h
    simp at h
    obtain ⟨h1, h2⟩ := h
    subst h1; subst h2
    simp
  | cons p rest ih =>
    intro acc total ds h
    obtain ⟨e, item⟩ := p
    cases hpe : processEntry e with
    | error msg => simp [evalLoop, hpe] at h
    | ok v =>
      obtain ⟨score, correct, feedback, question⟩ := v
      cases hlp : evalLoop (acc + score) rest with
      | error msg => simp [evalLoop, hpe, hlp] at h
      | ok pr =>
        obtain ⟨t2, ds2⟩ := pr
        simp [evalLoop, hpe, hlp] at h
        obtain ⟨h1, h2⟩ := h
        subst h1; subst h2
        have hih := ih (acc + score) t2 ds2 hlp
        rw [hih]
        simp [List.sum_cons]
        ring

theorem zip_map_snd (a : List Json) (b : List QuestionItem) :
    (a.zip b).map Prod.snd = b.take a.length := by
  induction a generalizing b with
  | nil => simp
  | cons x xs ih =>
    cases b with
    | nil => simp
    | cons y ys => simp [List.zip_cons_cons, ih]

/-! ### Claims C1, C2, C10 -/

/-- C1 (amended): for a parsed model output that is a JSON array of the
same length as the submission's items, all of whose entries the
`/evaluate` loop can process (objects with coercible fields),
`/evaluate` returns a `ScoreResponse` with exactly one `ScoreDetail`
per input item, the `i`-th carrying the `question_id` of the `i`-th
submission item. -/
theorem evaluate_positional_pairing (items : List QuestionItem) (entries : List Json)
    (hlen : entries.length = items.length)
    (hok : ∀ e ∈ entries, entryOk e = true) :
    ∃ resp, evaluate items (Json.arr entries) = Except.ok resp ∧
      resp.details.length = items.length ∧
      resp.details.map (fun d => d.question_id) = items.map (fun it => it.question_id) := by
  have hpairs : ∀ p ∈ entries.zip items, entryOk p.1 = true := by
    intro p hp
    obtain ⟨e, it⟩ := p
    exact hok e (List.of_mem_zip hp).1
  obtain ⟨total, ds, hds, hlen2, hmap⟩ := evalLoop_ok_of_entries (entries.zip items) 0 hpairs
  refine ⟨⟨total, ds⟩, ?_, ?_, ?_⟩
  · simp [evaluate, pyIter, hds]
  · rw [hlen2, List.length_zip, hlen, Nat.min_self]
  · rw [hmap]
    have hcomp : (entries.zip items).map (fun p => p.2.question_id) =
        ((entries.zip items).map Prod.snd).map (fun it => it.question_id) := by
      simp [List.map_map]
    rw [hcomp, zip_map_snd, hlen, List.take_length]

/-- C1 counterexample: an array entry that is not an object (here
`null`) makes the loop raise, so `/evaluate` reports an error rather
than returning a `ScoreResponse`, even though the array length equals
the number of submission items. -/
theorem evaluate_same_length_counterexample :
    evaluate [⟨("q1"), ("Q"), ("A"), ("E")⟩] (Json.arr [Json.null]) =
      Except.error (("object has no attribute get")) := rfl

/-- Witness for C1 on a two-item submission with a well-shaped
two-entry model output. -/
theorem evaluate_positional_pairing_witness :
    ∃ resp,
      evaluate [⟨("q1"), ("Q1"), ("A1"), ("E1")⟩, ⟨("q2"), ("Q2"), ("A2"), ("E2")⟩]
          (Json.arr [Json.obj [(("score"), Json.num 5)], Json.obj []]) = Except.ok resp ∧
      resp.details.length =
        [⟨("q1"), ("Q1"), ("A1"), ("E1")⟩, (⟨("q2"), ("Q2"), ("A2"), ("E2")⟩ : QuestionItem)].length ∧
      resp.details.map (fun d => d.question_id) =
        [⟨("q1"), ("Q1"), ("A1"), ("E1")⟩, (⟨("q2"), ("Q2"), ("A2"), ("E2")⟩ : QuestionItem)].map
          (fun it => it.question_id) :=
  evaluate_positional_pairing _ _ (by decide) (by decide)

/-- C2 (amended): for a parsed model output array whose length differs
from the number of submission items, provided every entry actually
paired by `zip` (the first `min` of the two lengths) is processable,
`/evaluate` does not report an error and returns exactly
`min(output length, input length)` details — zip-style silent
truncation. -/
theorem evaluate_truncates_on_length_mismatch (items : List QuestionItem) (entries : List Json)
    (hne : entries.length ≠ items.length)
    (hok : ∀ p ∈ entries.zip items, entryOk p.1 = true) :
    ∃ resp, evaluate items (Json.arr entries) = Except.ok resp ∧
      resp.details.length = min entries.length items.length := by
  obtain ⟨total, ds, hds, hlen2, hmap⟩ := evalLoop_ok_of_entries (entries.zip items) 0 hok
  refine ⟨⟨total, ds⟩, ?_, ?_⟩
  · simp [evaluate, pyIter, hds]
  · rw [hlen2, List.length_zip]

/-- C2 counterexample: with one submission item and the length-two
output array `[null, null]`, `/evaluate` reports an error (the first
zipped entry raises) instead of returning `min(2, 1) = 1` details. -/
theorem evaluate_truncation_counterexample :
    evaluate [⟨("q1"), ("Q"), ("A"), ("E")⟩] (Json.arr [Json.null, Json.null]) =
      Except.error (("object has no attribute get")) := rfl

/-- Witness for C2: one submission item against a well-shaped
two-entry output yields exactly one detail. -/
theorem evaluate_truncates_on_length_mismatch_witness :
    ∃ resp,
      evaluate [⟨("q1"), ("Q1"), ("A1"), ("E1")⟩]
          (Json.arr [Json.obj [(("score"), Json.num 5)], Json.obj []]) = Except.ok resp ∧
      resp.details.length = min 2 1 :=
  evaluate_truncates_on_length_mismatch _ _ (by decide) (by decide)

/-- C10: whenever `/evaluate` returns a success response, its
`total_score` is exactly the sum of the `score` fields of the returned
details (0 for an empty details list). -/
theorem evaluate_total_is_sum_of_scores (items : List QuestionItem) (raw : Json)
    (resp : ScoreResponse) (h : evaluate items raw = Except.ok resp) :
    resp.total_score = (resp.details.map (fun d => d.score)).sum := by
  cases hit : pyIter raw with
  | error e => simp [evaluate, hit] at h
  | ok entries =>
    cases hlp : evalLoop 0 (entries.zip items) with
    | error e => simp [evaluate, hit, hlp] at h
    | ok pr =>
      obtain ⟨total, ds⟩ := pr
      simp [evaluate, hit, hlp] at h
      subst h
      have := evalLoop_total (entries.zip items) 0 total ds hlp
      simpa using this

/-- Witness for C10 at a concrete successful evaluation. -/
theorem evaluate_total_is_sum_of_scores_witness :
    (⟨0, []⟩ : ScoreResponse).total_score =
      ((⟨0, []⟩ : ScoreResponse).details.map (fun d => d.score)).sum :=
  evaluate_total_is_sum_of_scores [⟨("q1"), ("Q1"), ("A1"), ("E1")⟩]
    (Json.arr []) _ rfl

/-! ### Claim C3 -/

/-- C3 counterexample: a shape failure that is not an error.  With one
submission item and a model output that parses to the empty JSON object
`\x7b\x7d` — not the expected array of objects — `/evaluate` does not
report an error: iterating the empty dict yields no pairs and the
endpoint returns a success response with an empty details list, i.e. a
partial structured response. -/
theorem shape_failure_not_always_error_counterexample :
    evaluateEndpoint [⟨("q1"), ("Q"), ("A"), ("E")⟩] (Except.ok (Json.obj [])) =
      Except.ok ⟨0, []⟩ := rfl

/-- C3 (amended): a JSON-parse failure of the model output yields a
single generic internal-error response carrying the raw exception text
on every one of the four endpoints, and a non-object parsed value is a
reported error for `/swot`; but `/evaluate` can return a truncated or
empty success response for shape failures that do not raise (see the
counterexample). -/
theorem parse_failures_report_generic_error (e : String) (items : List QuestionItem) :
    evaluateEndpoint items (Except.error e) = Except.error e ∧
    swotEndpoint (Except.error e) = Except.error e ∧
    generateQaEndpoint (Except.error e) = Except.error ((("Gemini Error: ")) ++ e) ∧
    generateAlternativesEndpoint (Except.error e) = Except.error ((("Gemini error: ")) ++ e) ∧
    (∀ d : Json, (∀ fs, d ≠ Json.obj fs) → ∃ e2, swot d = Except.error e2) := by
  refine ⟨rfl, rfl, rfl, rfl, ?_⟩
  intro d hd
  cases d with
  | null => exact ⟨_, rfl⟩
  | bool b => exact ⟨_, rfl⟩
  | num q => exact ⟨_, rfl⟩
  | str s => exact ⟨_, rfl⟩
  | arr xs => exact ⟨_, rfl⟩
  | obj fs => exact absurd rfl (hd fs)

/-- Witness for C3 (amended) at a concrete parse-error text and a
concrete non-object model output. -/
theorem parse_failures_report_generic_error_witness :
    evaluateEndpoint [] (Except.error ("Expecting value: line 1 column 1 (char 0)")) =
      Except.error (("Expecting value: line 1 column 1 (char 0)")) ∧
    (∃ e2, swot (Json.arr []) = Except.error e2) :=
  ⟨(parse_failures_report_generic_error ("Expecting value: line 1 column 1 (char 0)") []).1,
    (parse_failures_report_generic_error ("Expecting value: line 1 column 1 (char 0)") []).2.2.2.2
      (Json.arr []) (fun fs h => Json.noConfusion h)⟩

/-! ### Claim C4 -/

theorem parseAlternatives_ok_forall (l : List Json) (r : List AlternativeQuestion)
    (h : parseAlternatives l = Except.ok r) :
    ∀ q ∈ l, ∃ a, parseAlternativeQuestion q = Except.ok a := by
  induction l generalizing r with
  | nil => intro q hq; cases hq
  | cons x xs ih =>
    intro q hq
    cases hpq : parseAlternativeQuestion x with
    | error msg => simp [parseAlternatives, hpq] at h
    | ok a =>
      cases hrest : parseAlternatives xs with
      | error msg => simp [parseAlternatives, hpq, hrest] at h
      | ok tail =>
        cases hq with
        | head => exact ⟨a, hpq⟩
        | tail _ hmem => exact ih tail hrest q hmem

/-- C4: `/generate-alternatives` reports the cardinality error for any
parsed model output that is not a JSON array of length exactly 3, and
every success response comes from an array of exactly three entries
each of which validates against the fixed `AlternativeQuestion`
schema. -/
theorem alternatives_requires_exactly_three (parsed : Json) :
    ((∀ qs, parsed = Json.arr qs → qs.length ≠ 3) →
      generate_alternatives parsed = Except.error (("Expected a JSON array of length 3"))) ∧
    (∀ res, generate_alternatives parsed = Except.ok res →
      ∃ qs, parsed = Json.arr qs ∧ qs.length = 3 ∧
        ∀ q ∈ qs, ∃ a, parseAlternativeQuestion q = Except.ok a) := by
  constructor
  · intro hlen
    cases parsed with
    | arr qs =>
      have h3 : qs.length ≠ 3 := hlen qs rfl
      rw [generate_alternatives, if_neg h3]
    | null => rfl
    | bool b => rfl
    | num q => rfl
    | str s => rfl
    | obj fs => rfl
  · intro res hres
    cases parsed with
    | arr qs =>
      by_cases h3 : qs.length = 3
      · rw [generate_alternatives, if_pos h3] at hres
        exact ⟨qs, rfl, h3, parseAlternatives_ok_forall qs res hres⟩
      · rw [generate_alternatives, if_neg h3] at hres
        cases hres
    | null => cases hres
    | bool b => cases hres
    | num q => cases hres
    | str s => cases hres
    | obj fs => cases hres

/-- Witness for C4: a non-array model output (the empty JSON object)
is rejected with the cardinality error. -/
theorem alternatives_requires_exactly_three_witness :
    generate_alternatives (Json.obj []) =
      Except.error (("Expected a JSON array of length 3")) :=
  (alternatives_requires_exactly_three (Json.obj [])).1 (fun qs h => Json.noConfusion h)

/-! ### Claim C5 -/

/-- C5: inside the `/evaluate` loop, an entry that is a JSON object
processes its absent fields deterministically — a missing `score`
defaults to 0, a missing `correct` to `false`, and missing
`feedback`/`question` to the empty string — and an entry with all four
fields absent is accepted, not rejected. -/
theorem missing_fields_default_deterministically (fields : List (String × Json)) :
    ((fields.lookup ("score") = none ∧ fields.lookup ("correct") = none ∧
      fields.lookup ("feedback") = none ∧ fields.lookup ("question") = none) →
      processEntry (Json.obj fields) = Except.ok (0, false, (""), (""))) ∧
    (∀ s c f q, processEntry (Json.obj fields) = Except.ok (s, c, f, q) →
      (fields.lookup ("score") = none → s = 0) ∧
      (fields.lookup ("correct") = none → c = false) ∧
      (fields.lookup ("feedback") = none → f = ("")) ∧
      (fields.lookup ("question") = none → q = (""))) := by
  constructor
  · rintro ⟨h1, h2, h3, h4⟩
    simp [processEntry, h1, h2, h3, h4, pyFloat, pyBool, asStr]
  · intro s c f q h
    cases hsc : pyFloat ((fields.lookup ("score")).getD (Json.num 0)) with
    | error msg => simp [processEntry, hsc] at h
    | ok score =>
      cases hfb : asStr ((fields.lookup ("feedback")).getD (Json.str (""))) with
      | error msg => simp [processEntry, hsc, hfb] at h
      | ok feedback =>
        cases hqu : asStr ((fields.lookup ("question")).getD (Json.str (""))) with
        | error msg => simp [processEntry, hsc, hfb, hqu] at h
        | ok question =>
          simp [processEntry, hsc, hfb, hqu] at h
          obtain ⟨hs, hc, hf, hq⟩ := h
          refine ⟨?_, ?_, ?_, ?_⟩
          · intro hnone
            rw [hnone] at hsc
            simp [pyFloat] at hsc
            rw [← hs, hsc]
          · intro hnone
            rw [← hc, hnone]
            simp [pyBool]
          · intro hnone
            rw [hnone] at hfb
            simp [asStr] at hfb
            rw [← hf, hfb]
          · intro hnone
            rw [hnone] at hqu
            simp [asStr] at hqu
            rw [← hq, hqu]

/-- Witness for C5 at the empty object entry. -/
theorem missing_fields_default_deterministically_witness :
    processEntry (Json.obj []) = Except.ok (0, false, (""), ("")) :=
  (missing_fields_default_deterministically []).1 ⟨rfl, rfl, rfl, rfl⟩

/-! ### Claim C7 -/

/-- C7 (amended): `/generate-qa` builds its response from the value
under the `questions` key exactly when the parsed output is an object
containing a `questions` key — regardless of the value's type, so a
non-array value such as a string or object is iterated Python-style
and can yield a (possibly empty) success — or a non-empty list whose
first element is such an object (the shapes captured by
`qaGuardExtract`); every parsed shape without such a key — including
the empty list, objects without `questions`, and non-object scalars —
is a reported error. -/
theorem genqa_shape_dispatch (parsed : Json) :
    (∀ qs, qaGuardExtract parsed = some qs →
      generate_questions parsed = buildFromQuestions qs) ∧
    (qaGuardExtract parsed = none → ∃ e, generate_questions parsed = Except.error e) := by
  cases parsed with
  | null => exact ⟨fun qs h => (nomatch h), fun _ => ⟨_, rfl⟩⟩
  | bool b => exact ⟨fun qs h => (nomatch h), fun _ => ⟨_, rfl⟩⟩
  | num q => exact ⟨fun qs h => (nomatch h), fun _ => ⟨_, rfl⟩⟩
  | str s => exact ⟨fun qs h => (nomatch h), fun _ => ⟨_, rfl⟩⟩
  | obj fs =>
    cases hl : fs.lookup ("questions") with
    | none =>
      refine ⟨fun qs h => ?_, fun _ => ?_⟩
      · rw [qaGuardExtract, hl] at h; cases h
      · exact ⟨_, by rw [generate_questions, hl]⟩
    | some qs0 =>
      refine ⟨fun qs h => ?_, fun hn => ?_⟩
      · rw [qaGuardExtract, hl] at h
        cases h
        rw [generate_questions, hl]
      · rw [qaGuardExtract, hl] at hn; cases hn
  | arr elems =>
    cases elems with
    | nil => exact ⟨fun qs h => (nomatch h), fun _ => ⟨_, rfl⟩⟩
    | cons x rest =>
      cases x with
      | obj fs =>
        cases hl : fs.lookup ("questions") with
        | none =>
          refine ⟨fun qs h => ?_, fun _ => ?_⟩
          · rw [qaGuardExtract, hl] at h; cases h
          · exact ⟨_, by rw [generate_questions, hl]⟩
        | some qs0 =>
          refine ⟨fun qs h => ?_, fun hn => ?_⟩
          · rw [qaGuardExtract, hl] at h
            cases h
            rw [generate_questions, hl]
          · rw [qaGuardExtract, hl] at hn; cases hn
      | null => exact ⟨fun qs h => (nomatch h), fun _ => ⟨_, rfl⟩⟩
      | bool b => exact ⟨fun qs h => (nomatch h), fun _ => ⟨_, rfl⟩⟩
      | num q => exact ⟨fun qs h => (nomatch h), fun _ => ⟨_, rfl⟩⟩
      | str s => exact ⟨fun qs h => (nomatch h), fun _ => ⟨_, rfl⟩⟩
      | arr ys => exact ⟨fun qs h => (nomatch h), fun _ => ⟨_, rfl⟩⟩

/-- C7 counterexample: an object whose `questions` key holds a
non-array value — here the empty string — is not a reported error: the
guard checks key presence only, the comprehension iterates the empty
string and yields no entries, and the endpoint returns a success
response with an empty questions list. -/
theorem genqa_nonarray_questions_counterexample :
    generate_questions (Json.obj [(("questions"), Json.str (""))]) =
      Except.ok ⟨[]⟩ := rfl

/-- Witness for C7: an object with an (empty) `questions` array is
dispatched to the response builder. -/
theorem genqa_shape_dispatch_witness :
    generate_questions (Json.obj [(("questions"), Json.arr [])]) =
      buildFromQuestions (Json.arr []) :=
  (genqa_shape_dispatch (Json.obj [(("questions"), Json.arr [])])).1 (Json.arr []) rfl

/-! ### Claim C8 -/

/-- C8: every prompt builder is a pure deterministic function of the
fields of its typed request that it interpolates: requests agreeing on
those fields produce identical prompt strings (and in particular two
runs on identical input produce the identical prompt). -/
theorem prompt_builders_deterministic :
    (∀ p q : QuestionGenerationRequest,
      p.number_of_questions = q.number_of_questions → p.question_type = q.question_type →
      p.topics = q.topics → p.subject = q.subject → p.class_ = q.class_ →
      p.difficulty = q.difficulty → p.instructions = q.instructions →
      build_question_generation_prompt p = build_question_generation_prompt q) ∧
    (∀ a b : List QuestionItem, a = b →
      build_evaluation_prompt a = build_evaluation_prompt b) ∧
    (∀ a b : List QuestionItem, a = b →
      build_swot_prompt a = build_swot_prompt b) ∧
    (∀ r s : AlternativeRequest,
      r.questionType = s.questionType → r.subtopic = s.subtopic → r.difficulty = s.difficulty →
      r.subject = s.subject → r.marks = s.marks → r.id = s.id →
      build_alternatives_prompt r = build_alternatives_prompt s) := by
  refine ⟨?_, ?_, ?_, ?_⟩
  · intro p q h1 h2 h3 h4 h5 h6 h7
    rw [build_question_generation_prompt, build_question_generation_prompt,
      h1, h2, h3, h4, h5, h6, h7]
  · intro a b h; rw [h]
  · intro a b h; rw [h]
  · intro r s h1 h2 h3 h4 h5 h6
    rw [build_alternatives_prompt, build_alternatives_prompt, h1, h2, h3, h4, h5, h6]

/-- Witness for C8: two question-generation requests differing only in
fields the template does not interpolate (`title`, `start_date`,
`end_date`, `description`, `max_score`, `passing_score`) produce the
identical prompt. -/
theorem prompt_builders_deterministic_witness :
    build_question_generation_prompt
        ⟨("T1"), ("math"), ("7"), ("2024-01-01"), ("2024-02-01"), ("mcq"), 5, ("easy"),
          ("algebra"), ("none"), ("first"), 100, 40⟩ =
      build_question_generation_prompt
        ⟨("T2"), ("math"), ("7"), ("2025-01-01"), ("2025-02-01"), ("mcq"), 5, ("easy"),
          ("algebra"), ("none"), ("second"), 90, 35⟩ :=
  prompt_builders_deterministic.1 _ _ rfl rfl rfl rfl rfl rfl rfl

/-! ### Claim C9 -/

/-- C9: `/health-check` returns the fixed payload with status `"ok"`
independently of the external model service: its result is the same
whatever the service would have responded (including failure). -/
theorem health_check_constant_ok (r1 r2 : Except String Json) :
    health_check r1 = health_check r2 ∧
    health_check r1 = Json.obj [(("status"), Json.str ("ok"))] :=
  ⟨rfl, rfl⟩
